import Mathlib

/-!
Shallow embedding of the realtime middle tier (`app/backend/rtmt.py`):
the quality gate (`_is_valid_content`, `_handle_low_confidence_input`),
the text normalizer (`_apply_ssml_formatting`), and the two message
transformers (`_process_message_to_client`, `_process_message_to_server`).

JSON dictionaries are embedded as Lean structures carrying the fields the
transformers read or write; optional JSON keys become `Option` fields.
Python floats (confidence, temperature) are embedded as exact rationals.
Side effects (`server_ws.send_json`, `client_ws.send_json`, mutation of
`self._tools_pending`) are embedded as explicit outputs of the processing
functions; a Python `KeyError` becomes `Except.error`.
-/

/-- List-of-chars helper: Python whitespace for `str.strip`. -/
def is_py_space (c : Char) : Bool :=
  c == ' ' || c == '\t' || c == '\n' || c == '\r' || c == '\x0b' || c == '\x0c'

/-- Python `str.strip()`: drop whitespace from both ends. -/
def py_strip (s : String) : String :=
  String.mk (((s.data.dropWhile is_py_space).reverse.dropWhile is_py_space).reverse)

/-- Python `str.lower()` (ASCII case folding). -/
def py_lower (s : String) : String :=
  String.mk (s.data.map Char.toLower)

/-- Does the char list start with the given sub-list? (both args explicit:
first the candidate prefix, then the list). -/
def list_starts_with : List Char → List Char → Bool
  | [], _ => true
  | _ :: _, [] => false
  | a :: sub, b :: rest => a == b && list_starts_with sub rest

/-- Python `sub in s` on strings, as char lists: substring occurrence. -/
def list_contains_sub (sub : List Char) : List Char → Bool
  | [] => list_starts_with sub []
  | c :: rest => list_starts_with sub (c :: rest) || list_contains_sub sub rest

/-- Python `all(c == s[0] for c in s)`: every char equals the first one
(vacuously true on the empty generator). -/
def py_all_eq_head : List Char → Bool
  | [] => true
  | c :: rest => (c :: rest).all (fun x => x == c)

/-- Association-list lookup standing in for Python dict indexing. -/
def dict_lookup {α : Type} (l : List (String × α)) (k : String) : Option α :=
  match l with
  | [] => none
  | (k2, v) :: rest => if k2 == k then some v else dict_lookup rest k

/-- Direction a tool result is routed to (`ToolResultDirection`). -/
inductive ToolResultDirection
  | TO_SERVER
  | TO_CLIENT
deriving DecidableEq

/-- Result of a tool invocation (`ToolResult`): text payload plus
destination. `none` text embeds Python `None`. -/
structure ToolResult where
  text : Option String
  destination : ToolResultDirection

/-- Method `ToolResult.to_text`: `None` becomes the empty string. -/
def ToolResult.to_text (r : ToolResult) : String :=
  match r.text with
  | none => ""
  | some t => t

/-- A registered tool (`Tool`): schema (abstracted to its JSON text) and
handler; the async handler becomes a function from the raw argument
string to a result. -/
structure Tool where
  schema : String
  target : String → ToolResult

/-- A pending tool call (`RTToolCall`). -/
structure RTToolCall where
  tool_call_id : String
  previous_id : String

/-- The turn-detection object injected by `_process_message_to_server`. -/
structure TurnDetection where
  type : String
  create_response : Bool

/-- The `session` payload of `session.created` / `session.update` events.
Nullable or possibly-absent keys are `Option`; `extra` stands for every
field the transformers never touch. -/
structure RSession where
  instructions : String
  tools : List String
  voice : Option String
  tool_choice : String
  max_response_output_tokens : Option Nat
  temperature : Option ℚ
  disable_audio : Option Bool
  turn_detection : Option TurnDetection
  extra : String

/-- An `item` payload: `type` discriminates; the remaining fields are the
ones the transformer reads for that type. `content` and `confidence`
are read with `.get` defaults, hence `Option`. -/
structure RTItem where
  type : String
  text : String
  content : Option String
  confidence : Option ℚ
  call_id : String
  name : String
  arguments : String

/-- One entry of a `response.done` event's `output` list. -/
structure ROutput where
  type : String
  text : String

/-- The `response` payload of a `response.done` event. -/
structure RTResponse where
  output : List ROutput

/-- A protocol event, as the transformers see it after `json.loads`. -/
structure RTMessage where
  type : String
  session : RSession
  item : Option RTItem
  previous_item_id : String
  response : Option RTResponse

/-- Server-enforced configuration of the middle tier (`RTMiddleTier`
attributes read by the transformers); `tools` is the tool registry as a
name-keyed association list. -/
structure RTConfig where
  system_message : Option String
  temperature : Option ℚ
  max_tokens : Option Nat
  disable_audio : Option Bool
  voice_choice : Option String
  tools : List (String × Tool)

/-- Noise patterns of `_is_valid_content`. -/
def noise_patterns : List String := ["hmm", "um", "uh", "mm", "hm"]

/-- Method `_is_valid_content`: reject empty input, trimmed-lowercased
content shorter than 3 chars, exact filler matches, and degenerate
single-character repetitions. -/
def is_valid_content (content : String) : Bool :=
  if content.data.isEmpty then false
  else
    let c := py_lower (py_strip content)
    if c.length < 3 then false
    else if noise_patterns.contains c then false
    else if 1 < c.length && py_all_eq_head c.data then false
    else true

/-- Explicit repeat-request markers of `_handle_low_confidence_input`. -/
def explicit_markers : List String := ["repeat", "again", "didn't hear", "say that again"]

/-- Method `_handle_low_confidence_input`: very low confidence, low
confidence on short content, or an explicit repeat request. -/
def handle_low_confidence_input (content : String) (confidence : ℚ) : Bool :=
  if confidence < 0.35 then true
  else if confidence < 0.5 ∧ content.length < 8 then true
  else if explicit_markers.any (fun m => list_contains_sub m.data (py_lower content).data) then true
  else false

/-- The SSML envelope marker checked by `_apply_ssml_formatting`. -/
def ssml_marker : String := "<speak>"

/-- Opening part of the SSML envelope of `_apply_ssml_formatting`. -/
def ssml_pre : String := "<speak><lang xml:lang=\"en-US\"><prosody rate=\"fast\">"

/-- Closing part of the SSML envelope of `_apply_ssml_formatting`. -/
def ssml_post : String := "</prosody></lang></speak>"

/-- Method `_apply_ssml_formatting`: wrap text in the SSML envelope unless
it is empty or already contains the marker. -/
def apply_ssml_formatting (text : String) : String :=
  if text.data.isEmpty || list_contains_sub ssml_marker.data text.data then text
  else ssml_pre ++ text ++ ssml_post

/-- The fixed repeat-request text sent on low-confidence input. -/
def repeat_text : String :=
  "I'm sorry, I didn't quite catch that. Could you please repeat what you said?"

/-- A JSON payload sent to the upstream socket via `server_ws.send_json`. -/
inductive ServerSend
  | itemCreateText (role : String) (content : String)
  | itemCreateFunctionCallOutput (call_id : String) (output : String)
  | responseCreate
deriving DecidableEq

/-- The side-channel payload sent to the client via `client_ws.send_json`
(type `extension.middle_tier_tool_response`). -/
structure ClientToolResponse where
  previous_item_id : String
  tool_name : String
  tool_result : String
deriving DecidableEq

/-- Everything `_process_message_to_client` produces on one event: the
value forwarded to the client (or `none`), the messages pushed to the
upstream and client sockets in order, and the updated pending map. -/
structure ProcOut where
  updated_message : Option RTMessage
  server_sends : List ServerSend
  client_sends : List ClientToolResponse
  tools_pending : List (String × RTToolCall)

/-- The mutating pop-inside-enumerate loop of the `response.done` branch:
`for i, output in enumerate(message["response"]["output"])` with
`output.pop(i)` on function calls and in-place SSML rewriting on text.
After a `pop(i)` the list iterator resumes at index `i + 1` of the
shrunk list, exactly as CPython does. Recursion is on a fuel counter so
the definition reduces structurally; the loop runs at most as many
iterations as the initial list length (the index grows by one each
step and the length never grows), so the initial fuel below never runs
out before the index passes the end of the list. -/
def response_done_go (fuel i : Nat) (outs : List ROutput) (replace : Bool) :
    List ROutput × Bool :=
  match fuel with
  | 0 => (outs, replace)
  | fuel' + 1 =>
    if h : i < outs.length then
      let o := outs.get ⟨i, h⟩
      if o.type = "function_call" then
        response_done_go fuel' (i + 1) (outs.eraseIdx i) true
      else if o.type = "text" then
        response_done_go fuel' (i + 1) (outs.set i { o with text := apply_ssml_formatting o.text }) true
      else
        response_done_go fuel' (i + 1) outs replace
    else
      (outs, replace)

/-- Entry point of the `response.done` output-editing loop, starting at
index 0 with `replace = False`. -/
def response_done_loop (outs : List ROutput) : List ROutput × Bool :=
  response_done_go outs.length 0 outs false

/-- Method `_process_message_to_client`: dispatch on the upstream event
type; `Except.error` embeds an uncaught `KeyError`. -/
def process_message_to_client (cfg : RTConfig) (pending : List (String × RTToolCall))
    (message : RTMessage) : Except String ProcOut :=
  if message.type = "session.created" then
    let session := message.session
    .ok ⟨some { message with session :=
          { session with instructions := "", tools := [], voice := cfg.voice_choice,
                         tool_choice := "none", max_response_output_tokens := none } },
        [], [], pending⟩
  else if message.type = "response.output_item.added" then
    match message.item with
    | some item =>
      if item.type = "text" then
        .ok ⟨some { message with item := some { item with text := apply_ssml_formatting item.text } },
            [], [], pending⟩
      else if item.type = "function_call" then
        .ok ⟨none, [], [], pending⟩
      else
        .ok ⟨some message, [], [], pending⟩
    | none => .ok ⟨some message, [], [], pending⟩
  else if message.type = "conversation.item.created" then
    match message.item with
    | some item =>
      if item.type = "text" then
        let content := item.content.getD ""
        let confidence := item.confidence.getD 1.0
        if !is_valid_content content then
          .ok ⟨none, [], [], pending⟩
        else if handle_low_confidence_input content confidence then
          .ok ⟨none, [.itemCreateText "assistant" (apply_ssml_formatting repeat_text)],
              [], pending⟩
        else
          .ok ⟨some { message with item := some { item with content := some (apply_ssml_formatting content) } },
              [], [], pending⟩
      else if item.type = "function_call" then
        let pending2 :=
          if (dict_lookup pending item.call_id).isSome then pending
          else pending ++ [(item.call_id, ⟨item.call_id, message.previous_item_id⟩)]
        .ok ⟨none, [], [], pending2⟩
      else if item.type = "function_call_output" then
        .ok ⟨none, [], [], pending⟩
      else
        .ok ⟨some message, [], [], pending⟩
    | none => .ok ⟨some message, [], [], pending⟩
  else if message.type = "response.function_call_arguments.delta" then
    .ok ⟨none, [], [], pending⟩
  else if message.type = "response.function_call_arguments.done" then
    .ok ⟨none, [], [], pending⟩
  else if message.type = "response.output_item.done" then
    match message.item with
    | some item =>
      if item.type = "function_call" then
        match dict_lookup pending item.call_id with
        | none => .error "KeyError: call_id not in _tools_pending"
        | some tool_call =>
          match dict_lookup cfg.tools item.name with
          | none => .error "KeyError: tool name not in tools"
          | some tool =>
            let result := tool.target item.arguments
            .ok ⟨none,
                [.itemCreateFunctionCallOutput item.call_id
                  (if result.destination = .TO_SERVER then result.to_text else "")],
                if result.destination = .TO_CLIENT then
                  [⟨tool_call.previous_id, item.name, result.to_text⟩]
                else [],
                pending⟩
      else
        .ok ⟨some message, [], [], pending⟩
    | none => .ok ⟨some message, [], [], pending⟩
  else if message.type = "response.done" then
    let pending2 := if 0 < pending.length then [] else pending
    let sends : List ServerSend := if 0 < pending.length then [.responseCreate] else []
    match message.response with
    | some resp =>
      let (outs, replace) := response_done_loop resp.output
      let updated :=
        if replace then { message with response := some { resp with output := outs } }
        else message
      .ok ⟨some updated, sends, [], pending2⟩
    | none => .ok ⟨some message, sends, [], pending2⟩
  else
    .ok ⟨some message, [], [], pending⟩

/-- Method `_process_message_to_server`: rewrite `session.update` events
with the server-enforced configuration; pass everything else through. -/
def process_message_to_server (cfg : RTConfig) (message : RTMessage) : Option RTMessage :=
  if message.type = "session.update" then
    let session := message.session
    let session :=
      match cfg.system_message with
      | some sm => { session with instructions := sm }
      | none => session
    let session :=
      match cfg.temperature with
      | some t => { session with temperature := some t }
      | none => session
    let session :=
      match cfg.max_tokens with
      | some mt => { session with max_response_output_tokens := some mt }
      | none => session
    let session :=
      match cfg.disable_audio with
      | some d => { session with disable_audio := some d }
      | none => session
    let session :=
      match cfg.voice_choice with
      | some v => { session with voice := some v }
      | none => session
    let session :=
      if session.turn_detection.isNone then
        { session with turn_detection := some ⟨"semantic_vad", true⟩ }
      else session
    let session :=
      { session with
          tool_choice := if 0 < cfg.tools.length then "auto" else "none",
          tools := cfg.tools.map (fun p => p.2.schema) }
    some { message with session := session }
  else
    some message

/-- Outcome of the quality gate on one transcribed input. -/
inductive QualityVerdict
  | rejectNoise
  | rejectLowConfidence
  | accept
deriving DecidableEq

/-- The composite quality decision exactly as the
`conversation.item.created` text branch applies it: the noise gate
first, then the low-confidence gate, otherwise accept. -/
def code_quality_verdict (content : String) (confidence : ℚ) : QualityVerdict :=
  if !is_valid_content content then .rejectNoise
  else if handle_low_confidence_input content confidence then .rejectLowConfidence
  else .accept

/-- Reference noise predicate, written from the specification's words:
the trimmed lowercase content has length below 3, or exactly matches a
fixed filler word, or consists entirely of one repeated character. -/
def spec_noise (content : String) : Bool :=
  let t := py_lower (py_strip content)
  decide (t.length < 3) || noise_patterns.contains t ||
    (decide (0 < t.length) && py_all_eq_head t.data)

/-- Reference low-confidence predicate, written from the specification's
words: confidence below 0.35, or confidence below 0.5 with content
shorter than 8 characters, or an explicit repeat-request phrase in the
content. -/
def spec_low_confidence (content : String) (confidence : ℚ) : Bool :=
  decide (confidence < 0.35) ||
    (decide (confidence < 0.5) && decide (content.length < 8)) ||
    explicit_markers.any (fun m => list_contains_sub m.data (py_lower content).data)

/-- Reference quality verdict, written from the specification's words. -/
def spec_quality_verdict (content : String) (confidence : ℚ) : QualityVerdict :=
  if spec_noise content then .rejectNoise
  else if spec_low_confidence content confidence then .rejectLowConfidence
  else .accept

theorem py_strip_of_empty (content : String) (h : content.data.isEmpty = true) :
    py_lower (py_strip content) = "" := by
  obtain ⟨d⟩ := content
  cases d with
  | nil => rfl
  | cons c t => simp [List.isEmpty] at h

theorem is_valid_content_eq_not_spec_noise (content : String) :
    is_valid_content content = !spec_noise content := by
  unfold is_valid_content spec_noise
  by_cases h0 : content.data.isEmpty = true
  · rw [if_pos h0, py_strip_of_empty content h0]
    decide
  · rw [if_neg h0]
    set t := py_lower (py_strip content) with hteq
    by_cases h3 : t.length < 3
    · simp [h3]
    · rw [if_neg h3]
      by_cases h4 : noise_patterns.contains t = true
      · have h4m : t ∈ noise_patterns := by simpa using h4
        simp [h3, h4m]
      · rw [if_neg h4]
        simp only [Bool.not_eq_true] at h4
        have h4m : t ∉ noise_patterns := by simpa using h4
        by_cases h5 : py_all_eq_head t.data = true
        · have hlen1 : (1 < t.length) := by omega
          have hlen0 : (0 < t.length) := by omega
          simp [h3, h4m, h5, hlen1, hlen0]
        · simp only [Bool.not_eq_true] at h5
          simp [h3, h4m, h5]

theorem handle_low_confidence_eq_spec (content : String) (confidence : ℚ) :
    handle_low_confidence_input content confidence = spec_low_confidence content confidence := by
  unfold handle_low_confidence_input spec_low_confidence
  by_cases h1 : confidence < 0.35
  · simp [h1]
  · rw [if_neg h1]
    by_cases h2 : confidence < 0.5 ∧ content.length < 8
    · simp [h1, h2.1, h2.2]
    · rw [if_neg h2]
      rcases Decidable.not_and_iff_or_not.mp h2 with h2a | h2b
      · by_cases h4 : explicit_markers.any
            (fun m => list_contains_sub m.data (py_lower content).data) = true
        · simp [h4]
        · simp only [Bool.not_eq_true] at h4
          simp [h1, h2a, h4]
      · by_cases h4 : explicit_markers.any
            (fun m => list_contains_sub m.data (py_lower content).data) = true
        · simp [h4]
        · simp only [Bool.not_eq_true] at h4
          simp [h1, h2b, h4]

theorem list_starts_with_self_append (p t : List Char) :
    list_starts_with p (p ++ t) = true := by
  induction p with
  | nil => rfl
  | cons a as ih => simp [list_starts_with, ih]

theorem list_contains_sub_of_starts_with (p s : List Char)
    (h : list_starts_with p s = true) : list_contains_sub p s = true := by
  cases s with
  | nil => simpa [list_contains_sub] using h
  | cons c rest => simp [list_contains_sub, h]

/-- The rest of the opening envelope after the `<speak>` marker. -/
def ssml_pre_rest : String := "<lang xml:lang=\"en-US\"><prosody rate=\"fast\">"

theorem ssml_pre_data_split : ssml_pre.data = ssml_marker.data ++ ssml_pre_rest.data := by
  decide

theorem wrapped_contains_marker (t : String) :
    list_contains_sub ssml_marker.data (ssml_pre ++ t ++ ssml_post).data = true := by
  apply list_contains_sub_of_starts_with
  rw [String.data_append, String.data_append, ssml_pre_data_split, List.append_assoc,
      List.append_assoc]
  exact list_starts_with_self_append _ _

/-- Claim C3: for every content string and confidence value, the quality
verdict computed by the code (noise gate, then low-confidence gate,
then accept) equals the reference definition written from the
specification: reject-noise iff the trimmed lowercase content is
shorter than 3 characters, matches a filler word exactly, or is one
repeated character; otherwise reject-low-confidence iff confidence is
below 0.35, or below 0.5 with content shorter than 8 characters, or
the content contains an explicit repeat-request phrase; otherwise
accept. -/
theorem quality_verdict_matches_reference (content : String) (confidence : ℚ) :
    code_quality_verdict content confidence = spec_quality_verdict content confidence := by
  unfold code_quality_verdict spec_quality_verdict
  rw [is_valid_content_eq_not_spec_noise, handle_low_confidence_eq_spec]
  cases hn : spec_noise content <;> simp [hn]

/-- Claim C9: the text normalizer is idempotent; a string already
containing the `<speak>` marker is returned unchanged, and a non-empty
string without the marker is wrapped in the fixed envelope. -/
theorem ssml_formatting_idempotent (t : String) :
    apply_ssml_formatting (apply_ssml_formatting t) = apply_ssml_formatting t ∧
    (list_contains_sub ssml_marker.data t.data = true → apply_ssml_formatting t = t) ∧
    (t ≠ "" → list_contains_sub ssml_marker.data t.data = false →
      apply_ssml_formatting t = ssml_pre ++ t ++ ssml_post) := by
  refine ⟨?_, ?_, ?_⟩
  · by_cases h : (t.data.isEmpty || list_contains_sub ssml_marker.data t.data) = true
    · have ht : apply_ssml_formatting t = t := by
        unfold apply_ssml_formatting
        rw [if_pos h]
      rw [ht, ht]
    · have ht : apply_ssml_formatting t = ssml_pre ++ t ++ ssml_post := by
        unfold apply_ssml_formatting
        rw [if_neg h]
      rw [ht]
      unfold apply_ssml_formatting
      rw [if_pos (by rw [wrapped_contains_marker]; simp)]
  · intro h
    unfold apply_ssml_formatting
    rw [if_pos]
    simp [h]
  · intro hne h
    unfold apply_ssml_formatting
    rw [if_neg]
    simp only [Bool.or_eq_true, not_or, Bool.not_eq_true]
    constructor
    · obtain ⟨d⟩ := t
      cases d with
      | nil => exact absurd rfl hne
      | cons c rest => simp [List.isEmpty]
    · exact h

/-- Closed instantiation of the C9 theorem: idempotence on a concrete
string, a marker-bearing string left unchanged, and a plain string
wrapped in the envelope. -/
theorem ssml_formatting_idempotent_witness :
    apply_ssml_formatting (apply_ssml_formatting "hello") = apply_ssml_formatting "hello" ∧
    apply_ssml_formatting "<speak>x" = "<speak>x" ∧
    apply_ssml_formatting "hello" = ssml_pre ++ "hello" ++ ssml_post :=
  ⟨(ssml_formatting_idempotent "hello").1,
   (ssml_formatting_idempotent "<speak>x").2.1 (by decide),
   (ssml_formatting_idempotent "hello").2.2 (by decide) (by decide)⟩

/-- An empty server configuration (no overrides, no registered tools). -/
def cfg_empty : RTConfig := ⟨none, none, none, none, none, []⟩

/-- A placeholder session payload for events that do not touch it. -/
def dummy_session : RSession := ⟨"", [], none, "", none, none, none, none, ""⟩

/-- A `response.done` event whose output list holds two consecutive
function-call entries. -/
def c1_message : RTMessage :=
  ⟨"response.done", dummy_session, none, "",
   some ⟨[⟨"function_call", "a"⟩, ⟨"function_call", "b"⟩]⟩⟩

/-- Claim C1, failing input: on a `response.done` event whose output list
is two consecutive function-call entries, the pop-inside-enumerate loop
removes only the first one, so the message forwarded to the client
still contains a function-call entry. -/
theorem response_done_leaks_function_call :
    ∃ r : RTResponse,
      process_message_to_client cfg_empty [] c1_message =
        .ok { updated_message := some { c1_message with response := some r },
              server_sends := [], client_sends := [], tools_pending := [] } ∧
      r.output.any (fun o => o.type = "function_call") = true :=
  ⟨⟨[⟨"function_call", "b"⟩]⟩, rfl, rfl⟩

/-- A `conversation.item.created` text event with content "ok" and
confidence 0.9. -/
def c2_message : RTMessage :=
  ⟨"conversation.item.created", dummy_session,
   some ⟨"text", "", some "ok", some (0.9 : ℚ), "", "", ""⟩, "", none⟩

/-- Claim C2, counterexample: the event with content "ok" and confidence
0.9 is not forwarded at all — no message reaches the client. -/
theorem ok_event_not_forwarded :
    ¬ ∃ out, process_message_to_client cfg_empty [] c2_message = .ok out ∧
        out.updated_message.isSome = true := by
  rintro ⟨out, h1, h2⟩
  have heval : process_message_to_client cfg_empty [] c2_message =
      .ok ⟨none, [], [], []⟩ := rfl
  rw [heval] at h1
  injection h1 with h
  subst h
  simp at h2

/-- Claim C2 as amended: the input "ok" (trimmed length 2, below the
3-character floor) is rejected by the noise gate and the event is
dropped — nothing is forwarded to the client and nothing is sent
upstream. -/
theorem ok_event_rejected_as_noise :
    is_valid_content "ok" = false ∧
    process_message_to_client cfg_empty [] c2_message =
      .ok { updated_message := none, server_sends := [], client_sends := [],
            tools_pending := [] } :=
  ⟨rfl, rfl⟩

/-- Claim C4: every `session.created` event is forwarded with empty
instructions, an empty tool list, tool choice forced to "none", the
max-token cap nulled, and the voice forced to the configured value,
whatever the upstream payload held. -/
theorem session_created_strips_server_config (cfg : RTConfig)
    (pending : List (String × RTToolCall)) (message : RTMessage)
    (h : message.type = "session.created") :
    ∃ m : RTMessage,
      process_message_to_client cfg pending message =
        .ok { updated_message := some m, server_sends := [], client_sends := [],
              tools_pending := pending } ∧
      m.session.instructions = "" ∧ m.session.tools = [] ∧
      m.session.tool_choice = "none" ∧
      m.session.max_response_output_tokens = none ∧
      m.session.voice = cfg.voice_choice := by
  obtain ⟨ty, sess, item, prev, resp⟩ := message
  subst h
  exact ⟨_, rfl, rfl, rfl, rfl, rfl, rfl⟩

/-- Closed instantiation of the C4 theorem: a `session.created` payload
that arrives full of server secrets is forwarded stripped. -/
theorem session_created_strips_server_config_witness :
    ∃ m : RTMessage,
      process_message_to_client ⟨some "sys", some (0.7 : ℚ), some 100, some false, some "alloy", []⟩ []
          ⟨"session.created",
           ⟨"secret instructions", ["tool-schema"], some "other", "auto", some 4096,
            some (0.5 : ℚ), some true, none, "unmanaged"⟩,
           none, "", none⟩ =
        .ok { updated_message := some m, server_sends := [], client_sends := [],
              tools_pending := [] } ∧
      m.session.instructions = "" ∧ m.session.tools = [] ∧
      m.session.tool_choice = "none" ∧
      m.session.max_response_output_tokens = none ∧
      m.session.voice = some "alloy" :=
  session_created_strips_server_config _ _ _ rfl

/-- Claim C5: on a `session.update` event from the client, each
server-managed field of the forwarded session equals the configured
value when the server sets one and the client's original value when it
does not, and everything the transformer does not manage passes
through unchanged. -/
theorem session_update_server_overrides (cfg : RTConfig) (message : RTMessage)
    (h : message.type = "session.update") :
    ∃ m : RTMessage,
      process_message_to_server cfg message = some m ∧
      m.session.instructions =
        (match cfg.system_message with
         | some s => s
         | none => message.session.instructions) ∧
      m.session.temperature =
        (match cfg.temperature with
         | some t => some t
         | none => message.session.temperature) ∧
      m.session.max_response_output_tokens =
        (match cfg.max_tokens with
         | some mt => some mt
         | none => message.session.max_response_output_tokens) ∧
      m.session.disable_audio =
        (match cfg.disable_audio with
         | some d => some d
         | none => message.session.disable_audio) ∧
      m.session.voice =
        (match cfg.voice_choice with
         | some v => some v
         | none => message.session.voice) ∧
      m.session.extra = message.session.extra ∧
      m.type = message.type ∧ m.item = message.item ∧
      m.previous_item_id = message.previous_item_id ∧
      m.response = message.response := by
  obtain ⟨ty, sess, item, prev, resp⟩ := message
  subst h
  obtain ⟨sm, tp, mt, da, vc, tls⟩ := cfg
  obtain ⟨ins, stools, svoice, stc, smrot, stemp, sdis, std, sextra⟩ := sess
  cases sm <;> cases tp <;> cases mt <;> cases da <;> cases vc <;> cases std <;>
    exact ⟨_, rfl, rfl, rfl, rfl, rfl, rfl, rfl, rfl, rfl, rfl, rfl⟩

/-- Closed instantiation of the C5 theorem: a server that configures a
system message and voice but leaves temperature, max tokens, and the
audio flag unset. -/
theorem session_update_server_overrides_witness :
    ∃ m : RTMessage,
      process_message_to_server ⟨some "sys", none, none, none, some "alloy", []⟩
          ⟨"session.update",
           ⟨"client instructions", ["client-tool"], some "clientvoice", "required",
            some 42, some (0.9 : ℚ), some true, none, "client extras"⟩,
           none, "prev", none⟩ = some m ∧
      m.session.instructions = "sys" ∧
      m.session.temperature = some (0.9 : ℚ) ∧
      m.session.max_response_output_tokens = some 42 ∧
      m.session.disable_audio = some true ∧
      m.session.voice = some "alloy" ∧
      m.session.extra = "client extras" ∧
      m.type = "session.update" ∧ m.item = none ∧
      m.previous_item_id = "prev" ∧ m.response = none :=
  session_update_server_overrides _ _ rfl

/-- Claim C6: a `response.output_item.done` function-call event with a
pending call identifier and a registered tool produces exactly one
upstream function-call-output send (result text when routed to the
server, empty otherwise), exactly one client side-channel send iff the
result is routed to the client, and no forwarded message. -/
theorem function_call_done_dispatch (cfg : RTConfig)
    (pending : List (String × RTToolCall)) (message : RTMessage) (item : RTItem)
    (tool_call : RTToolCall) (tool : Tool)
    (hty : message.type = "response.output_item.done")
    (hitem : message.item = some item)
    (hfc : item.type = "function_call")
    (hpend : dict_lookup pending item.call_id = some tool_call)
    (htool : dict_lookup cfg.tools item.name = some tool) :
    process_message_to_client cfg pending message =
      .ok { updated_message := none,
            server_sends := [.itemCreateFunctionCallOutput item.call_id
              (if (tool.target item.arguments).destination = .TO_SERVER
               then (tool.target item.arguments).to_text else "")],
            client_sends :=
              if (tool.target item.arguments).destination = .TO_CLIENT
              then [⟨tool_call.previous_id, item.name, (tool.target item.arguments).to_text⟩]
              else [],
            tools_pending := pending } := by
  obtain ⟨ty, sess, it, prev, resp⟩ := message
  subst hty
  subst hitem
  obtain ⟨ity, itext, icontent, iconf, icid, iname, iargs⟩ := item
  subst hfc
  simp only [process_message_to_client, String.reduceEq, reduceIte] at hpend htool ⊢
  simp only [hpend, htool]

/-- A tool whose result is routed to the client, used in witnesses. -/
def demo_tool : Tool := ⟨"schema", fun _ => ⟨some "result text", .TO_CLIENT⟩⟩

/-- A `response.output_item.done` event completing function call "c1" of
tool "lookup". -/
def c6_message : RTMessage :=
  ⟨"response.output_item.done", dummy_session,
   some ⟨"function_call", "", none, none, "c1", "lookup", "\x7b\x7d"⟩, "", none⟩

/-- Closed instantiation of the C6 theorem: the pending call "c1" resolves
against the registered tool "lookup" whose result is routed to the
client. -/
theorem function_call_done_dispatch_witness :
    process_message_to_client ⟨none, none, none, none, none, [("lookup", demo_tool)]⟩
        [("c1", ⟨"c1", "item_7"⟩)] c6_message =
      .ok { updated_message := none,
            server_sends := [.itemCreateFunctionCallOutput "c1"
              (if (demo_tool.target "\x7b\x7d").destination = .TO_SERVER
               then (demo_tool.target "\x7b\x7d").to_text else "")],
            client_sends :=
              if (demo_tool.target "\x7b\x7d").destination = .TO_CLIENT
              then [⟨"item_7", "lookup", (demo_tool.target "\x7b\x7d").to_text⟩]
              else [],
            tools_pending := [("c1", ⟨"c1", "item_7"⟩)] } :=
  function_call_done_dispatch ⟨none, none, none, none, none, [("lookup", demo_tool)]⟩
    [("c1", ⟨"c1", "item_7"⟩)] c6_message ⟨"function_call", "", none, none, "c1", "lookup", "\x7b\x7d"⟩
    ⟨"c1", "item_7"⟩ demo_tool rfl rfl rfl rfl rfl

/-- Claim C7: on a `response.done` event, an outstanding pending call set
is cleared and exactly one continuation request is sent upstream;
with no pending calls nothing is sent and the tracker is unchanged. -/
theorem response_done_continuation (cfg : RTConfig)
    (pending : List (String × RTToolCall)) (message : RTMessage)
    (h : message.type = "response.done") :
    ∃ out, process_message_to_client cfg pending message = .ok out ∧
      out.server_sends = (if 0 < pending.length then [.responseCreate] else []) ∧
      out.tools_pending = (if 0 < pending.length then [] else pending) ∧
      out.client_sends = [] := by
  obtain ⟨ty, sess, item, prev, resp⟩ := message
  subst h
  cases resp with
  | none => exact ⟨_, rfl, rfl, rfl, rfl⟩
  | some r => exact ⟨_, rfl, rfl, rfl, rfl⟩

/-- Closed instantiation of the C7 theorem in both regimes: one pending
call triggers exactly one continuation and clears the tracker; zero
pending calls trigger nothing and leave the tracker empty. -/
theorem response_done_continuation_witness :
    (∃ out, process_message_to_client cfg_empty [("c1", ⟨"c1", "p"⟩)]
        ⟨"response.done", dummy_session, none, "", none⟩ = .ok out ∧
      out.server_sends =
        (if 0 < [("c1", (⟨"c1", "p"⟩ : RTToolCall))].length then [.responseCreate] else []) ∧
      out.tools_pending =
        (if 0 < [("c1", (⟨"c1", "p"⟩ : RTToolCall))].length then [] else [("c1", ⟨"c1", "p"⟩)]) ∧
      out.client_sends = []) ∧
    (∃ out, process_message_to_client cfg_empty []
        ⟨"response.done", dummy_session, none, "", none⟩ = .ok out ∧
      out.server_sends = (if 0 < ([] : List (String × RTToolCall)).length then [.responseCreate] else []) ∧
      out.tools_pending = (if 0 < ([] : List (String × RTToolCall)).length then [] else []) ∧
      out.client_sends = []) :=
  ⟨response_done_continuation _ _ _ rfl, response_done_continuation _ _ _ rfl⟩

/-- Claim C8: a `response.output_item.done` function-call event whose call
identifier is not pending, or whose tool name is not registered, makes
the transformer raise instead of producing any output. -/
theorem function_call_done_desync_fatal (cfg : RTConfig)
    (pending : List (String × RTToolCall)) (message : RTMessage) (item : RTItem)
    (hty : message.type = "response.output_item.done")
    (hitem : message.item = some item)
    (hfc : item.type = "function_call")
    (hmiss : dict_lookup pending item.call_id = none ∨
             dict_lookup cfg.tools item.name = none) :
    ∃ e, process_message_to_client cfg pending message = .error e := by
  obtain ⟨ty, sess, it, prev, resp⟩ := message
  subst hty
  subst hitem
  obtain ⟨ity, itext, icontent, iconf, icid, iname, iargs⟩ := item
  subst hfc
  simp only [process_message_to_client, String.reduceEq, reduceIte] at hmiss ⊢
  rcases hmiss with hp | ht
  · rw [hp]
    exact ⟨_, rfl⟩
  · cases hp : dict_lookup pending icid with
    | none => exact ⟨_, rfl⟩
    | some tc => rw [ht]; exact ⟨_, rfl⟩

/-- Closed instantiation of the C8 theorem: a function-call done event for
call "c9" with an empty pending tracker is a fatal error. -/
theorem function_call_done_desync_fatal_witness :
    ∃ e, process_message_to_client cfg_empty []
        ⟨"response.output_item.done", dummy_session,
         some ⟨"function_call", "", none, none, "c9", "lookup", ""⟩, "", none⟩ = .error e :=
  function_call_done_desync_fatal _ _ _ _ rfl rfl rfl (Or.inl rfl)

/-- Claim C10: a `conversation.item.created` text event with no confidence
field is treated with the assumed confidence 1.0, so once the content
passes the noise gate, it is dropped as low-confidence exactly when the
lowercased content contains one of the explicit repeat-request
markers. -/
theorem missing_confidence_defaults_to_one (cfg : RTConfig)
    (pending : List (String × RTToolCall)) (message : RTMessage) (item : RTItem)
    (hty : message.type = "conversation.item.created")
    (hitem : message.item = some item)
    (htext : item.type = "text")
    (hconf : item.confidence = none)
    (hvalid : is_valid_content (item.content.getD "") = true) :
    ∃ out, process_message_to_client cfg pending message = .ok out ∧
      (out.updated_message = none ↔
        explicit_markers.any
          (fun m => list_contains_sub m.data (py_lower (item.content.getD "")).data) = true) := by
  obtain ⟨ty, sess, it, prev, resp⟩ := message
  subst hty
  subst hitem
  obtain ⟨ity, itext, icontent, iconf, icid, iname, iargs⟩ := item
  subst htext
  simp only at hconf
  subst hconf
  simp only at hvalid
  have hlc : handle_low_confidence_input (icontent.getD "") ((1.0 : ℚ)) =
      explicit_markers.any
        (fun m => list_contains_sub m.data (py_lower (icontent.getD "")).data) := by
    unfold handle_low_confidence_input
    rw [if_neg (by norm_num : ¬((1.0 : ℚ) < 0.35))]
    rw [if_neg (fun hand => absurd hand.1 (by norm_num : ¬((1.0 : ℚ) < 0.5)))]
    cases hany : explicit_markers.any
        (fun m => list_contains_sub m.data (py_lower (icontent.getD "")).data) <;>
      simp [hany]
  simp only [process_message_to_client, String.reduceEq, reduceIte, hvalid,
    Bool.not_true, Option.getD_none, hlc]
  cases hany : explicit_markers.any
      (fun m => list_contains_sub m.data (py_lower (icontent.getD "")).data) with
  | true => exact ⟨_, rfl, by simp⟩
  | false => exact ⟨_, rfl, by simp⟩

/-- Closed instantiation of the C10 theorem: "say that again please" with
no confidence field passes the noise gate and carries an explicit
repeat marker. -/
theorem missing_confidence_defaults_to_one_witness :
    ∃ out, process_message_to_client cfg_empty []
        ⟨"conversation.item.created", dummy_session,
         some ⟨"text", "", some "say that again please", none, "", "", ""⟩, "", none⟩ =
          .ok out ∧
      (out.updated_message = none ↔
        explicit_markers.any
          (fun m => list_contains_sub m.data
            (py_lower ((some "say that again please").getD "")).data) = true) :=
  missing_confidence_defaults_to_one cfg_empty []
    ⟨"conversation.item.created", dummy_session,
     some ⟨"text", "", some "say that again please", none, "", "", ""⟩, "", none⟩
    ⟨"text", "", some "say that again please", none, "", "", ""⟩
    rfl rfl rfl rfl (by decide)
